import Mathlib

namespace E2B

/-!
Verification of the E2B sandbox session lifecycle manager of this repository
(`api/app/clients/tools/structured/E2BCode.js`, `api/models/Sandbox.js`, and the
earlier tool revision that hosts the idle reaper `cleanupInactiveSandboxes`).

The tool's `_call(input)` method is embedded as a pure function from an input
record, an oracle describing the remote E2B service's responses, and the
in-memory session registry (the module-level `sandboxes` Map) to the returned
JSON value, the new registry, and a trace of the outward calls attempted.
JavaScript `throw` inside the top-level `try` is modelled by returning the
catch block's error envelope directly from each throw site, with whatever
registry mutations happened before the throw kept (JavaScript has no rollback).
-/

/-- A JSON value, the shape of everything `_call` returns (before
`JSON.stringify`).  Object fields are kept in insertion order, as JavaScript
object literals do; a field whose value is `undefined` is omitted by
`JSON.stringify`, which the embedding mirrors by not inserting the field. -/
inductive Json where
  | null : Json
  | bool (b : Bool) : Json
  | num (n : Int) : Json
  | str (s : String) : Json
  | arr (xs : List Json) : Json
  | obj (fs : List (String × Json)) : Json

/-- Field lookup on a JSON object; `none` on non-objects and absent keys. -/
def jsonField (j : Json) (k : String) : Option Json :=
  match j with
  | Json.obj fs => List.lookup k fs
  | _ => none

/-- An environment-variable object (`envs` in the schema, `process.env`, the
`env`/`envs` options passed to the E2B SDK): keys with string values, in
insertion order. -/
abbrev EnvList := List (String × String)

/-- `Map.prototype.has`. -/
def mapHas {κ ν : Type} [DecidableEq κ] (m : List (κ × ν)) (k : κ) : Bool :=
  (List.lookup k m).isSome

/-- `Map.prototype.get` (`none` for a missing key, as `undefined`). -/
def mapGet {κ ν : Type} [DecidableEq κ] (m : List (κ × ν)) (k : κ) : Option ν :=
  List.lookup k m

/-- `Map.prototype.set`: replaces the value in place for an existing key
(keeping its position in iteration order), appends a new key at the end. -/
def mapSet {κ ν : Type} [DecidableEq κ] (m : List (κ × ν)) (k : κ) (v : ν) :
    List (κ × ν) :=
  match m with
  | [] => [(k, v)]
  | (k', v') :: rest => if k' = k then (k, v) :: rest else (k', v') :: mapSet rest k v

/-- `Map.prototype.delete`: removes the entry for the key, if any. -/
def mapDelete {κ ν : Type} [DecidableEq κ] (m : List (κ × ν)) (k : κ) :
    List (κ × ν) :=
  m.filter (fun p => decide (¬ p.1 = k))

/-- JavaScript object-spread merge `\x7b...a, ...b\x7d`: the keys of `a` in
order, each overridden by `b`'s value when `b` also has the key, followed by
the keys of `b` that `a` does not have. -/
def jsMerge (a b : EnvList) : EnvList :=
  a.map (fun p => match List.lookup p.1 b with
    | some w => (p.1, w)
    | none => p) ++
  b.filter (fun p => (List.lookup p.1 a).isNone)

/-- JavaScript truthiness of an optional string (`undefined` and `""` are
falsy). -/
def strTruthy (o : Option String) : Bool :=
  match o with
  | some s => decide (¬ s = "")
  | none => false

/-- JavaScript truthiness of an optional number (`undefined` and `0` are
falsy). -/
def intTruthy (o : Option Int) : Bool :=
  match o with
  | some n => decide (¬ n = 0)
  | none => false

/-- Template-literal interpolation of a possibly-`undefined` string. -/
def optStrD (o : Option String) : String := o.getD "undefined"

/-- The `sessionId` field of a response object: omitted when the session id is
`undefined`, because `JSON.stringify` drops `undefined`-valued fields. -/
def sessionField (sid : Option String) : List (String × Json) :=
  match sid with
  | some s => [("sessionId", Json.str s)]
  | none => []

/-- The uniform error envelope built by `_call`'s top-level catch block:
`JSON.stringify(\x7b sessionId, error: error.message, success: false \x7d)`. -/
def errEnvelope (sid : Option String) (msg : String) : Json :=
  Json.obj (sessionField sid ++ [("error", Json.str msg), ("success", Json.bool false)])

/-- `getHiddenEnvVars()`: every process-environment variable whose key starts
with `E2B_CODE_EV_`, with that prefix (12 characters) stripped, in order. -/
def getHiddenEnvVars (processEnv : EnvList) : EnvList :=
  (processEnv.filter (fun p => "E2B_CODE_EV_".toList.isPrefixOf p.1.toList)).map
    (fun p => (String.mk (p.1.toList.drop 12), p.2))

/-- The repeated pattern
`if (Object.keys(hidden).length > 0 || envs) opts.env(s) = \x7b...hidden, ...envs\x7d`
used at sandbox creation and before every command run: the option is set only
when there is something to pass, spreading `undefined` counts as the empty
object. -/
def mergeEnvOpt (processEnv : EnvList) (envs : Option EnvList) : Option EnvList :=
  if 0 < (getHiddenEnvVars processEnv).length ∨ envs.isSome then
    some (jsMerge (getHiddenEnvVars processEnv) (envs.getD []))
  else
    none

/-- `sandboxId.split('-')[0]`: the stable prefix of a remote sandbox id before
the first `-` separator (computed over the character list so that it reduces
in the kernel). -/
def firstSeg (s : String) : String :=
  String.mk (s.toList.takeWhile (fun c => decide (¬ c = '-')))

/-- A JavaScript whitespace character, as far as `String.prototype.trim` and
the outputs at hand are concerned. -/
def isJsWhitespace (c : Char) : Bool :=
  c = ' ' ∨ c = '\n' ∨ c = '\t' ∨ c = '\r'

/-- `String.prototype.trim()`: strips whitespace from both ends (computed over
the character list so that it reduces in the kernel). -/
def jsTrim (s : String) : String :=
  String.mk (((s.toList.dropWhile isJsWhitespace).reverse.dropWhile isJsWhitespace).reverse)

/-- The `action` enum of the tool's input schema. -/
inductive Action where
  | help | create | list_sandboxes | kill | set_timeout
  | shell | kill_command | write_file | read_file | install
  | get_file_downloadurl | get_host | command_run | start_server
  | command_list | command_kill | processinfo | system_install
deriving DecidableEq

/-- The `language` enum of the input schema. -/
inductive Language where
  | python | javascript | typescript | shell
deriving DecidableEq

/-- The string form of an action (used by the inner dispatch's
`Unknown action: ...` message). -/
def actionToString (a : Action) : String :=
  match a with
  | Action.help => "help"
  | Action.create => "create"
  | Action.list_sandboxes => "list_sandboxes"
  | Action.kill => "kill"
  | Action.set_timeout => "set_timeout"
  | Action.shell => "shell"
  | Action.kill_command => "kill_command"
  | Action.write_file => "write_file"
  | Action.read_file => "read_file"
  | Action.install => "install"
  | Action.get_file_downloadurl => "get_file_downloadurl"
  | Action.get_host => "get_host"
  | Action.command_run => "command_run"
  | Action.start_server => "start_server"
  | Action.command_list => "command_list"
  | Action.command_kill => "command_kill"
  | Action.processinfo => "processinfo"
  | Action.system_install => "system_install"

/-- The structured input of `_call`, after schema validation; optional fields
are `none` when absent.  The destructuring defaults of `_call`
(`background = false`, `timeoutMs = 30 * 1000`, `timeout = 60 * 60`,
`language = 'python'`) are applied inside `callE2B`. -/
structure Input where
  action : Action
  sessionId : Option String := none
  sandboxId : Option String := none
  template : Option String := none
  language : Option Language := none
  cmd : Option String := none
  background : Option Bool := none
  cwd : Option String := none
  timeoutMs : Option Int := none
  user : Option String := none
  commandId : Option String := none
  filePath : Option String := none
  fileContent : Option String := none
  port : Option Int := none
  logFile : Option String := none
  timeout : Option Int := none
  envs : Option EnvList := none
  command_name : Option String := none
  pid : Option Int := none
  packages : Option (List String) := none

/-- A connected remote sandbox object, as far as the tool observes it. -/
structure RemoteSandbox where
  sandboxId : String
deriving DecidableEq

/-- The result object of `sandbox.commands.run`: for a foreground run the
output and exit code, for a background run the handle whose `id` is the opaque
command id. -/
structure RunResult where
  stdout : String := ""
  stderr : String := ""
  exitCode : Int := 0
  id : String := ""
deriving DecidableEq

/-- The options object passed to `sandbox.commands.run`; a `none` field was
not set on the object. -/
structure RunOpts where
  background : Option Bool := none
  envs : Option EnvList := none
  cwd : Option String := none
  timeoutMs : Option Int := none
  user : Option String := none
deriving DecidableEq

/-- A stored background-command handle (the tool only ever uses its `id` and
its `kill()` method). -/
structure CommandHandle where
  id : String
deriving DecidableEq

/-- A registry entry: `\x7b sandbox, lastAccessed: Date.now(), commands: new Map() \x7d`. -/
structure SandboxInfo where
  sandbox : RemoteSandbox
  lastAccessed : Int
  commands : List (String × CommandHandle)
deriving DecidableEq

/-- The in-memory session registry (`global.sandboxes`), a `Map` keyed by the
caller's `sessionId` (which can be `undefined`). -/
abbrev St := List (Option String × SandboxInfo)

/-- One element of `Sandbox.list()`'s result. -/
structure ListedSandbox where
  sandboxId : String
  createdAt : String
  status : String
deriving DecidableEq

/-- One element of `sandbox.commands.list()`'s result. -/
structure ProcInfo where
  pid : Int
  cmd : String
deriving DecidableEq

/-- JSON rendering of a `ProcInfo`, for the `processes` / `process` response
fields. -/
def procToJson (p : ProcInfo) : Json :=
  Json.obj [("pid", Json.num p.pid), ("cmd", Json.str p.cmd)]

/-- The remote E2B service, as a response oracle: each field gives the outcome
of the corresponding awaited SDK call (`Except.error` is a rejected promise,
whose message the catch blocks observe). -/
structure Remote where
  createRes : Except String RemoteSandbox
  runRes : String → String → RunOpts → Except String RunResult
  connectRes : String → Except String Unit
  killRes : String → Except String Unit
  setTimeoutRes : String → Int → Except String Unit
  cmdKillRes : String → Except String Unit
  listRes : Except String (List ListedSandbox)
  writeRes : String → String → String → Except String Unit
  readRes : String → String → Except String String
  downloadUrlRes : String → String → Except String String
  getHostRes : String → Int → Except String String
  cmdListRes : String → Except String (List ProcInfo)
  pidKillRes : String → Int → Except String Bool

/-- The ambient state of one `_call` invocation: the process environment (for
hidden variables), the current time, and the remote service oracle. -/
structure Env where
  processEnv : EnvList := []
  now : Int := 0
  remote : Remote

/-- Observable outward calls of one `_call` invocation, in order.  The three
`db*` constructors stand for the persistence operations that
`api/models/Sandbox.js` exports (`createSandbox`, `setTimeoutForSandbox`,
`deleteSandboxById`); `E2BCode.js` as present in the repository never invokes
them, which is exactly what the persistence claims are settled against. -/
inductive Eff where
  | sandboxCreate (template : String) (timeoutMs : Int) (env : Option EnvList)
  | run (sandboxId cmd : String) (opts : RunOpts)
  | connect (sandboxId : String)
  | sandboxKill (sandboxId : String)
  | remoteSetTimeout (sandboxId : String) (ms : Int)
  | commandKill (commandId : String)
  | listSandboxes
  | fileWrite (sandboxId path content : String)
  | fileRead (sandboxId path : String)
  | downloadUrl (sandboxId path : String)
  | getHost (sandboxId : String) (port : Int)
  | commandList (sandboxId : String)
  | pidKill (sandboxId : String) (pid : Int)
  | reaperKill (sandboxId : String) (succeeded : Bool)
  | dbCreateSandbox (sandboxId sessionId : String) (timeoutMs : Int)
  | dbSetTimeoutForSandbox (sessionId : String) (timeoutMs : Int)
  | dbDeleteSandbox (sandboxId : String)
deriving DecidableEq

/-- `true` exactly on the persistence-layer operations. -/
def isDbWrite (e : Eff) : Bool :=
  match e with
  | Eff.dbCreateSandbox _ _ _ => true
  | Eff.dbSetTimeoutForSandbox _ _ => true
  | Eff.dbDeleteSandbox _ => true
  | _ => false

/-- The outcome of one `_call` invocation: the JSON value returned, the
registry afterwards, and the trace of outward calls attempted. -/
structure CallRes where
  json : Json
  state : St
  trace : List Eff

/-- The static per-command help texts of `getDetailedHelp`, keyed by command
name (content abridged to the description and parameter lists of the source;
only the set of keys and the lookup behaviour matter to the dispatch). -/
def helpTexts : List (String × String) := [
  ("help",
   "Returns information about every possible action that can be performed using the E2BCode tool."),
  ("create",
   "**create** Create a new E2B sandbox environment from a template. Required: sessionId. Optional: template, timeout (minutes, defaults to 60), envs."),
  ("list_sandboxes",
   "**list_sandboxes** List all active E2B sandboxes for the current session. Parameters: none (include sessionId for consistency)."),
  ("kill",
   "**kill** Terminate the E2B sandbox environment associated with the provided sessionId or sandboxId. Required: either sessionId or sandboxId; if both are provided sandboxId will take precedence."),
  ("set_timeout",
   "**set_timeout** Update the timeout for the sandbox environment to keep it alive for the specified duration. Required: sessionId, timeout (minutes)."),
  ("shell",
   "**shell** Run a shell command inside the sandbox environment. Required: sessionId, cmd. Optional: background (defaults to false), envs."),
  ("kill_command",
   "**kill_command** Terminate a background shell command that was previously started. Required: sessionId, commandId."),
  ("write_file",
   "**write_file** Write content to a file in the sandbox environment. Required: sessionId, filePath, fileContent."),
  ("read_file",
   "**read_file** Read the content of a file from the sandbox environment. Required: sessionId, filePath."),
  ("install",
   "**install** Install python or node packages within the sandbox environment. Use system_install for system packages. Required: sessionId, packages. Optional: language (python uses pip, javascript or typescript use npm; defaults to python), envs."),
  ("get_file_downloadurl",
   "**get_file_downloadurl** Obtain a download URL for a file in the sandbox environment. Required: sessionId, filePath."),
  ("get_host",
   "**get_host** Retrieve the host and port information for accessing services running inside the sandbox. Required: sessionId, port."),
  ("command_run",
   "**command_run** Start a new command and wait until it finishes executing, or run it in the background. Required: sessionId, cmd. Optional: background, cwd, timeoutMs, user, envs."),
  ("start_server",
   "**start_server** Start a server process in the sandbox environment by executing a command in the background, redirecting stdout and stderr to a specified log file, and returning the host and port information. Required: sessionId, cmd, port, logFile. Optional: cwd, timeoutMs, user, envs. Returns sessionId, commandId, host, logFile, message."),
  ("command_list",
   "**command_list** List all running commands and PTY sessions within the sandbox environment. Required: sessionId."),
  ("command_kill",
   "**command_kill** Kill a running command specified by its process ID. Required: sessionId, pid."),
  ("processinfo",
   "**processinfo** Get detailed information about a running command specified by its process ID. Required: sessionId, pid."),
  ("system_install",
   "**system_install** Install system packages within the sandbox environment using sudo apt-get install. Required: sessionId, packages. Optional: envs.")]

/-- `getDetailedHelp(commandName)`: text lookup, `undefined` for unknown
names. -/
def getDetailedHelp (commandName : String) : Option String :=
  List.lookup commandName helpTexts

/-- The command list of the `help` overview response, in source order. -/
def overviewCommandList : List String :=
  ["help", "create", "list_sandboxes", "kill", "set_timeout", "shell",
   "kill_command", "write_file", "read_file", "install", "system_install",
   "get_file_downloadurl", "get_host", "command_run", "start_server",
   "command_list", "command_kill", "processinfo"]

/-- The overview message returned by `help` without a `command_name`. -/
def helpOverview : String :=
  "Available actions: " ++ String.intercalate ", " overviewCommandList ++
  ". Use 'help' with a command name to get detailed help about a specific command. You are HIGHLY encouraged to run help for system_install, command_run, shell and start_server to understand the differences between them and how to use them."

/-- `getSandboxInfo(sessionId)`: resolves the live handle for a session and
bumps its `lastAccessed` to now; `none` models the `No sandbox found` throw.
Returns the (refreshed) entry together with the updated registry. -/
def getSandboxInfo (now : Int) (st : St) (sessionId : Option String) :
    Option (SandboxInfo × St) :=
  match mapGet st sessionId with
  | some info0 =>
    let info := { info0 with lastAccessed := now }
    some (info, mapSet st sessionId info)
  | none => none

/-- The operational (non-lifecycle) half of `_call`'s dispatch: every action
that first resolves the live handle through `getSandboxInfo` and then runs
against the connected sandbox.  `st` already contains the refreshed
`lastAccessed`; `info` is the resolved entry; throws return the catch
envelope. -/
def operationalCase (E : Env) (i : Input) (st : St) (info : SandboxInfo)
    (adjustedTimeoutMs : Int) : CallRes :=
  let sessionId := i.sessionId
  let sb := info.sandbox
  let mergedEnvs := mergeEnvOpt E.processEnv i.envs
  match i.action with
  | Action.shell =>
    if ¬ strTruthy i.cmd then
      ⟨errEnvelope sessionId "Command (cmd) is required for `shell` action.", st, []⟩
    else
      let cmd := i.cmd.getD ""
      if i.background.getD false then
        let opts : RunOpts := { background := some true, envs := mergedEnvs }
        match E.remote.runRes sb.sandboxId cmd opts with
        | Except.error msg => ⟨errEnvelope sessionId msg, st, [Eff.run sb.sandboxId cmd opts]⟩
        | Except.ok r =>
          let st2 := mapSet st sessionId
            { info with commands := mapSet info.commands r.id ⟨r.id⟩ }
          ⟨Json.obj (sessionField sessionId ++
             [("commandId", Json.str r.id), ("success", Json.bool true),
              ("message", Json.str ("Background command started with ID " ++ r.id))]),
           st2, [Eff.run sb.sandboxId cmd opts]⟩
      else
        let opts : RunOpts := { envs := mergedEnvs }
        match E.remote.runRes sb.sandboxId cmd opts with
        | Except.error msg => ⟨errEnvelope sessionId msg, st, [Eff.run sb.sandboxId cmd opts]⟩
        | Except.ok r =>
          ⟨Json.obj (sessionField sessionId ++
             [("output", Json.str r.stdout), ("error", Json.str r.stderr),
              ("exitCode", Json.num r.exitCode)]),
           st, [Eff.run sb.sandboxId cmd opts]⟩
  | Action.kill_command =>
    if ¬ strTruthy i.commandId then
      ⟨errEnvelope sessionId "`commandId` is required for `kill_command` action.", st, []⟩
    else
      let cid := i.commandId.getD ""
      match mapGet info.commands cid with
      | none =>
        ⟨errEnvelope sessionId ("No background command found with ID " ++ cid ++ "."), st, []⟩
      | some _ =>
        match E.remote.cmdKillRes cid with
        | Except.error msg => ⟨errEnvelope sessionId msg, st, [Eff.commandKill cid]⟩
        | Except.ok _ =>
          let st2 := mapSet st sessionId
            { info with commands := mapDelete info.commands cid }
          ⟨Json.obj (sessionField sessionId ++
             [("success", Json.bool true),
              ("message", Json.str ("Background command with ID " ++ cid ++ " has been killed."))]),
           st2, [Eff.commandKill cid]⟩
  | Action.write_file =>
    if ¬ strTruthy i.filePath ∨ ¬ strTruthy i.fileContent then
      ⟨errEnvelope sessionId "`filePath` and `fileContent` are required for `write_file` action.", st, []⟩
    else
      let fp := i.filePath.getD ""
      let fc := i.fileContent.getD ""
      match E.remote.writeRes sb.sandboxId fp fc with
      | Except.error msg => ⟨errEnvelope sessionId msg, st, [Eff.fileWrite sb.sandboxId fp fc]⟩
      | Except.ok _ =>
        ⟨Json.obj (sessionField sessionId ++
           [("success", Json.bool true),
            ("message", Json.str ("File written to " ++ fp))]),
         st, [Eff.fileWrite sb.sandboxId fp fc]⟩
  | Action.read_file =>
    if ¬ strTruthy i.filePath then
      ⟨errEnvelope sessionId "`filePath` is required for `read_file` action.", st, []⟩
    else
      let fp := i.filePath.getD ""
      match E.remote.readRes sb.sandboxId fp with
      | Except.error msg => ⟨errEnvelope sessionId msg, st, [Eff.fileRead sb.sandboxId fp]⟩
      | Except.ok content =>
        ⟨Json.obj (sessionField sessionId ++
           [("content", Json.str content), ("success", Json.bool true)]),
         st, [Eff.fileRead sb.sandboxId fp]⟩
  | Action.install =>
    if i.packages.isNone ∨ (i.packages.getD []).length = 0 then
      ⟨errEnvelope sessionId "`packages` array is required for `install` action.", st, []⟩
    else
      let pkgs := i.packages.getD []
      let opts : RunOpts := { envs := mergedEnvs }
      match i.language.getD Language.python with
      | Language.python =>
        let c := "pip install " ++ String.intercalate " " pkgs
        match E.remote.runRes sb.sandboxId c opts with
        | Except.error msg => ⟨errEnvelope sessionId msg, st, [Eff.run sb.sandboxId c opts]⟩
        | Except.ok r =>
          ⟨Json.obj (sessionField sessionId ++
             [("success", Json.bool (r.exitCode == 0)), ("output", Json.str r.stdout),
              ("error", Json.str r.stderr)]),
           st, [Eff.run sb.sandboxId c opts]⟩
      | Language.javascript =>
        let c := "npm install " ++ String.intercalate " " pkgs
        match E.remote.runRes sb.sandboxId c opts with
        | Except.error msg => ⟨errEnvelope sessionId msg, st, [Eff.run sb.sandboxId c opts]⟩
        | Except.ok r =>
          ⟨Json.obj (sessionField sessionId ++
             [("success", Json.bool (r.exitCode == 0)), ("output", Json.str r.stdout),
              ("error", Json.str r.stderr)]),
           st, [Eff.run sb.sandboxId c opts]⟩
      | Language.typescript =>
        let c := "npm install " ++ String.intercalate " " pkgs
        match E.remote.runRes sb.sandboxId c opts with
        | Except.error msg => ⟨errEnvelope sessionId msg, st, [Eff.run sb.sandboxId c opts]⟩
        | Except.ok r =>
          ⟨Json.obj (sessionField sessionId ++
             [("success", Json.bool (r.exitCode == 0)), ("output", Json.str r.stdout),
              ("error", Json.str r.stderr)]),
           st, [Eff.run sb.sandboxId c opts]⟩
      | Language.shell =>
        ⟨errEnvelope sessionId "Unsupported language for package installation: shell", st, []⟩
  | Action.get_file_downloadurl =>
    if ¬ strTruthy i.filePath then
      ⟨errEnvelope sessionId "`filePath` is required for `get_file_downloadurl` action.", st, []⟩
    else
      let fp := i.filePath.getD ""
      match E.remote.downloadUrlRes sb.sandboxId fp with
      | Except.error msg => ⟨errEnvelope sessionId msg, st, [Eff.downloadUrl sb.sandboxId fp]⟩
      | Except.ok url =>
        ⟨Json.obj (sessionField sessionId ++
           [("success", Json.bool true), ("downloadUrl", Json.str url),
            ("message", Json.str ("Download URL generated for " ++ fp))]),
         st, [Eff.downloadUrl sb.sandboxId fp]⟩
  | Action.get_host =>
    if ¬ intTruthy i.port then
      ⟨errEnvelope sessionId "`port` is required for `get_host` action.", st, []⟩
    else
      let port := i.port.getD 0
      match E.remote.getHostRes sb.sandboxId port with
      | Except.error msg => ⟨errEnvelope sessionId msg, st, [Eff.getHost sb.sandboxId port]⟩
      | Except.ok host =>
        ⟨Json.obj (sessionField sessionId ++
           [("host", Json.str host), ("port", Json.num port),
            ("message", Json.str ("Host+port retrieved for port " ++ toString port))]),
         st, [Eff.getHost sb.sandboxId port]⟩
  | Action.system_install =>
    if i.packages.isNone ∨ (i.packages.getD []).length = 0 then
      ⟨errEnvelope sessionId "`packages` array is required for `system_install` action.", st, []⟩
    else
      let pkgs := i.packages.getD []
      let c := "sudo apt-get update && sudo apt-get install -y " ++ String.intercalate " " pkgs
      let opts : RunOpts := { envs := mergedEnvs }
      match E.remote.runRes sb.sandboxId c opts with
      | Except.error msg => ⟨errEnvelope sessionId msg, st, [Eff.run sb.sandboxId c opts]⟩
      | Except.ok r =>
        ⟨Json.obj (sessionField sessionId ++
           [("success", Json.bool (r.exitCode == 0)), ("output", Json.str r.stdout),
            ("error", Json.str r.stderr)]),
         st, [Eff.run sb.sandboxId c opts]⟩
  | Action.command_run =>
    if ¬ strTruthy i.cmd then
      ⟨errEnvelope sessionId "`cmd` is required for `command_run` action.", st, []⟩
    else
      let cmd := i.cmd.getD ""
      let opts : RunOpts :=
        { background := some (i.background.getD false),
          cwd := if strTruthy i.cwd then i.cwd else none,
          timeoutMs := if adjustedTimeoutMs = 0 then none else some adjustedTimeoutMs,
          user := if strTruthy i.user then i.user else none,
          envs := mergedEnvs }
      if i.background.getD false then
        match E.remote.runRes sb.sandboxId cmd opts with
        | Except.error msg => ⟨errEnvelope sessionId msg, st, [Eff.run sb.sandboxId cmd opts]⟩
        | Except.ok r =>
          let st2 := mapSet st sessionId
            { info with commands := mapSet info.commands r.id ⟨r.id⟩ }
          ⟨Json.obj (sessionField sessionId ++
             [("commandId", Json.str r.id), ("success", Json.bool true),
              ("message", Json.str ("Background command started with ID " ++ r.id))]),
           st2, [Eff.run sb.sandboxId cmd opts]⟩
      else
        match E.remote.runRes sb.sandboxId cmd opts with
        | Except.error msg => ⟨errEnvelope sessionId msg, st, [Eff.run sb.sandboxId cmd opts]⟩
        | Except.ok r =>
          ⟨Json.obj (sessionField sessionId ++
             [("stdout", Json.str r.stdout), ("stderr", Json.str r.stderr),
              ("exitCode", Json.num r.exitCode),
              ("success", Json.bool (r.exitCode == 0))]),
           st, [Eff.run sb.sandboxId cmd opts]⟩
  | Action.start_server =>
    if ¬ strTruthy i.cmd then
      ⟨errEnvelope sessionId "`cmd` is required for `start_server` action.", st, []⟩
    else if ¬ intTruthy i.port then
      ⟨errEnvelope sessionId "`port` is required for `start_server` action.", st, []⟩
    else if ¬ strTruthy i.logFile then
      ⟨errEnvelope sessionId "`logFile` is required for `start_server` action.", st, []⟩
    else
      let cmd := i.cmd.getD ""
      let port := i.port.getD 0
      let logFile := i.logFile.getD ""
      let serverCommand := cmd ++ " > " ++ logFile ++ " 2>&1"
      let opts : RunOpts :=
        { background := some true,
          cwd := if strTruthy i.cwd then i.cwd else none,
          timeoutMs := if adjustedTimeoutMs = 0 then none else some adjustedTimeoutMs,
          user := if strTruthy i.user then i.user else none,
          envs := mergedEnvs }
      match E.remote.runRes sb.sandboxId serverCommand opts with
      | Except.error msg => ⟨errEnvelope sessionId msg, st, [Eff.run sb.sandboxId serverCommand opts]⟩
      | Except.ok r =>
        let st2 := mapSet st sessionId
          { info with commands := mapSet info.commands r.id ⟨r.id⟩ }
        match E.remote.getHostRes sb.sandboxId port with
        | Except.error msg =>
          ⟨errEnvelope sessionId msg, st2,
           [Eff.run sb.sandboxId serverCommand opts, Eff.getHost sb.sandboxId port]⟩
        | Except.ok serverHost =>
          ⟨Json.obj (sessionField sessionId ++
             [("commandId", Json.str r.id), ("success", Json.bool true),
              ("serverHost", Json.str serverHost), ("logFile", Json.str logFile),
              ("message", Json.str ("Server started with ID " ++ r.id ++
                ", accessible at " ++ serverHost ++ ":" ++ toString port ++
                ". Logs are redirected to " ++ logFile))]),
           st2, [Eff.run sb.sandboxId serverCommand opts, Eff.getHost sb.sandboxId port]⟩
  | Action.command_list =>
    match E.remote.cmdListRes sb.sandboxId with
    | Except.error msg => ⟨errEnvelope sessionId msg, st, [Eff.commandList sb.sandboxId]⟩
    | Except.ok l =>
      ⟨Json.obj (sessionField sessionId ++
         [("success", Json.bool true), ("processes", Json.arr (l.map procToJson))]),
       st, [Eff.commandList sb.sandboxId]⟩
  | Action.command_kill =>
    match i.pid with
    | none => ⟨errEnvelope sessionId "`pid` is required for `command_kill` action.", st, []⟩
    | some pid =>
      match E.remote.pidKillRes sb.sandboxId pid with
      | Except.error msg => ⟨errEnvelope sessionId msg, st, [Eff.pidKill sb.sandboxId pid]⟩
      | Except.ok true =>
        ⟨Json.obj (sessionField sessionId ++
           [("success", Json.bool true),
            ("message", Json.str ("Process with PID " ++ toString pid ++ " has been killed."))]),
         st, [Eff.pidKill sb.sandboxId pid]⟩
      | Except.ok false =>
        ⟨Json.obj (sessionField sessionId ++
           [("success", Json.bool false),
            ("message", Json.str ("Failed to kill process with PID " ++ toString pid ++ "."))]),
         st, [Eff.pidKill sb.sandboxId pid]⟩
  | Action.processinfo =>
    match i.pid with
    | none => ⟨errEnvelope sessionId "`pid` is required for `processinfo` action.", st, []⟩
    | some pid =>
      match E.remote.cmdListRes sb.sandboxId with
      | Except.error msg => ⟨errEnvelope sessionId msg, st, [Eff.commandList sb.sandboxId]⟩
      | Except.ok l =>
        match l.find? (fun p => p.pid == pid) with
        | some p =>
          ⟨Json.obj (sessionField sessionId ++
             [("success", Json.bool true), ("process", procToJson p)]),
           st, [Eff.commandList sb.sandboxId]⟩
        | none =>
          ⟨Json.obj (sessionField sessionId ++
             [("success", Json.bool false),
              ("message", Json.str ("No process found with PID " ++ toString pid ++ "."))]),
           st, [Eff.commandList sb.sandboxId]⟩
  | a =>
    ⟨errEnvelope sessionId ("Unknown action: " ++ actionToString a), st, []⟩

/-- The default arm of `_call`'s outer switch: resolve the live handle via
`getSandboxInfo` (throwing `No sandbox found` when the session is unknown) and
continue with the per-action operational dispatch. -/
def dispatchOperational (E : Env) (i : Input) (st : St) (adjustedTimeoutMs : Int) : CallRes :=
  match getSandboxInfo E.now st i.sessionId with
  | none =>
    ⟨errEnvelope i.sessionId ("No sandbox found for sessionId " ++ optStrD i.sessionId ++
       ". Please create one using the 'create' action."), st, []⟩
  | some (info, st1) => operationalCase E i st1 info adjustedTimeoutMs

/-- The embedding of `E2BCode._call(input)`: dispatches on `action`, applying
the destructuring defaults and the two silent timeout clamps first; lifecycle
actions run directly, every other action resolves the live handle through
`getSandboxInfo` and continues in `operationalCase`.  Every JavaScript `throw`
inside the `try` surfaces as the catch block's `errEnvelope`. -/
def callE2B (E : Env) (i : Input) (st : St) : CallRes :=
  let sessionId := i.sessionId
  let timeoutMs := i.timeoutMs.getD (30 * 1000)
  let timeout := i.timeout.getD (60 * 60)
  let adjustedTimeoutMs := if timeoutMs < 1000 then 1000 else timeoutMs
  let adjustedTimeout := if timeout < 1 then 1 else timeout
  match i.action with
  | Action.help =>
    if strTruthy i.command_name then
      let cn := i.command_name.getD ""
      match getDetailedHelp (jsTrim cn) with
      | some txt => ⟨Json.obj [("message", Json.str txt)], st, []⟩
      | none =>
        ⟨Json.obj [("message", Json.str
           ("No detailed help available for command '" ++ cn ++ "'."))], st, []⟩
    else
      ⟨Json.obj [("message", Json.str helpOverview)], st, []⟩
  | Action.create =>
    if mapHas st sessionId then
      ⟨errEnvelope sessionId
         ("Sandbox with sessionId " ++ optStrD sessionId ++ " already exists."), st, []⟩
    else
      let envOpt := mergeEnvOpt E.processEnv i.envs
      let sandboxTemplate := if strTruthy i.template then i.template.getD "" else "ubuntu-latest"
      let createMs := adjustedTimeout * 60 * 1000
      match E.remote.createRes with
      | Except.error msg =>
        ⟨errEnvelope sessionId msg, st, [Eff.sandboxCreate sandboxTemplate createMs envOpt]⟩
      | Except.ok sb =>
        let st1 := mapSet st sessionId ⟨sb, E.now, []⟩
        match E.remote.runRes sb.sandboxId "whoami" {} with
        | Except.error msg =>
          ⟨errEnvelope sessionId msg, st1,
           [Eff.sandboxCreate sandboxTemplate createMs envOpt,
            Eff.run sb.sandboxId "whoami" {}]⟩
        | Except.ok who =>
          match E.remote.runRes sb.sandboxId "pwd" {} with
          | Except.error msg =>
            ⟨errEnvelope sessionId msg, st1,
             [Eff.sandboxCreate sandboxTemplate createMs envOpt,
              Eff.run sb.sandboxId "whoami" {}, Eff.run sb.sandboxId "pwd" {}]⟩
          | Except.ok pwdR =>
            ⟨Json.obj (sessionField sessionId ++
               [("sandboxId", Json.str sb.sandboxId),
                ("currentUser", Json.str (jsTrim who.stdout)),
                ("currentDirectory", Json.str (jsTrim pwdR.stdout)),
                ("success", Json.bool true),
                ("message", Json.str ("Sandbox created from template '" ++
                  sandboxTemplate ++ "' with timeout " ++ toString adjustedTimeout ++
                  " minutes."))]),
             st1,
             [Eff.sandboxCreate sandboxTemplate createMs envOpt,
              Eff.run sb.sandboxId "whoami" {}, Eff.run sb.sandboxId "pwd" {}]⟩
  | Action.list_sandboxes =>
    match E.remote.listRes with
    | Except.error msg =>
      ⟨Json.obj [("error", Json.str ("Error listing sandboxes: " ++ msg))], st,
       [Eff.listSandboxes]⟩
    | Except.ok l =>
      if l.length = 0 then
        ⟨Json.obj [("message", Json.str "No active sandboxes found")], st,
         [Eff.listSandboxes]⟩
      else
        ⟨Json.obj [("message", Json.str "Active sandboxes found"),
           ("sandboxes", Json.arr (l.map (fun sb =>
              Json.obj [("sandboxId", Json.str (firstSeg sb.sandboxId)),
                        ("createdAt", Json.str sb.createdAt),
                        ("status", Json.str sb.status)])))], st,
         [Eff.listSandboxes]⟩
  | Action.kill =>
    let fromInput := if strTruthy i.sandboxId then i.sandboxId else none
    let killSandboxId :=
      match fromInput with
      | some sb => some sb
      | none => (mapGet st sessionId).map (fun info => info.sandbox.sandboxId)
    if ¬ strTruthy killSandboxId then
      ⟨errEnvelope sessionId "No sandboxId or sessionId provided. Cannot kill sandbox.", st, []⟩
    else
      let validSandboxId := firstSeg (killSandboxId.getD "")
      match E.remote.connectRes validSandboxId with
      | Except.error _ =>
        ⟨Json.obj (sessionField sessionId ++
           [("success", Json.bool false),
            ("message", Json.str ("No sandbox found with sandboxId " ++ validSandboxId ++
              " and sessionId " ++ optStrD sessionId ++ "."))]),
         mapDelete st sessionId, [Eff.connect validSandboxId]⟩
      | Except.ok _ =>
        match E.remote.killRes validSandboxId with
        | Except.error _ =>
          ⟨Json.obj (sessionField sessionId ++
             [("success", Json.bool false),
              ("message", Json.str ("Failed to kill sandbox with sandboxId " ++
                validSandboxId ++ " and sessionId " ++ optStrD sessionId ++ "."))]),
           mapDelete st sessionId,
           [Eff.connect validSandboxId, Eff.sandboxKill validSandboxId]⟩
        | Except.ok _ =>
          ⟨Json.obj (sessionField sessionId ++
             [("success", Json.bool true),
              ("message", Json.str ("Sandbox with sessionId " ++ optStrD sessionId ++
                " and sandboxId " ++ validSandboxId ++ " has been killed."))]),
           mapDelete st sessionId,
           [Eff.connect validSandboxId, Eff.sandboxKill validSandboxId]⟩
  | Action.set_timeout =>
    match mapGet st sessionId with
    | none =>
      ⟨errEnvelope sessionId
         ("No sandbox found with sessionId " ++ optStrD sessionId ++ "."), st, []⟩
    | some info =>
      if timeout = 0 then
        ⟨errEnvelope sessionId "`timeout` is required for `set_timeout` action.", st, []⟩
      else
        let ms := adjustedTimeout * 60 * 1000
        match E.remote.setTimeoutRes info.sandbox.sandboxId ms with
        | Except.error msg =>
          ⟨errEnvelope sessionId msg, st, [Eff.remoteSetTimeout info.sandbox.sandboxId ms]⟩
        | Except.ok _ =>
          ⟨Json.obj (sessionField sessionId ++
             [("success", Json.bool true),
              ("message", Json.str ("Sandbox timeout updated to " ++
                toString adjustedTimeout ++ " minutes."))]),
           st, [Eff.remoteSetTimeout info.sandbox.sandboxId ms]⟩
  | _ => dispatchOperational E i st adjustedTimeoutMs

/-- The idle reaper `cleanupInactiveSandboxes` of the earlier tool revision:
sweeps the registry in iteration order; every entry idle for strictly more
than `10 * 60 * 1000` ms is removed after a best-effort kill of its remote
sandbox (`killRes` gives each kill's outcome; a failure is logged and
swallowed, the entry is removed either way); fresher entries are untouched. -/
def cleanupInactiveSandboxes (now : Int) (killRes : String → Except String Unit)
    (st : St) : St × List Eff :=
  match st with
  | [] => ([], [])
  | (k, info) :: rest =>
    if 10 * 60 * 1000 < now - info.lastAccessed then
      let r := cleanupInactiveSandboxes now killRes rest
      (r.1, Eff.reaperKill info.sandbox.sandboxId (killRes info.sandbox.sandboxId).toBool :: r.2)
    else
      let r := cleanupInactiveSandboxes now killRes rest
      ((k, info) :: r.1, r.2)

/-- A remote-service oracle on which every call succeeds, with the fixed
responses used by the concrete checks below (the sandbox id is the one the
repository's own test suite mocks). -/
def oracleA : Remote where
  createRes := Except.ok ⟨"ib1v2xb0f36jzttf1zyif-4b1cc5d5"⟩
  runRes := fun _ c _ =>
    if c = "whoami" then Except.ok { stdout := "sandbox-user\n", id := "c1" }
    else if c = "pwd" then Except.ok { stdout := "/home/sandbox\n", id := "c1" }
    else Except.ok { stdout := "out", stderr := "", exitCode := 0, id := "bg-1" }
  connectRes := fun _ => Except.ok ()
  killRes := fun _ => Except.ok ()
  setTimeoutRes := fun _ _ => Except.ok ()
  cmdKillRes := fun _ => Except.ok ()
  listRes := Except.ok []
  writeRes := fun _ _ _ => Except.ok ()
  readRes := fun _ _ => Except.ok "data"
  downloadUrlRes := fun _ _ => Except.ok "https://example/dl"
  getHostRes := fun _ _ => Except.ok "host1"
  cmdListRes := fun _ => Except.ok [⟨42, "sleep 5"⟩]
  pidKillRes := fun _ _ => Except.ok true

/-- An oracle for a dead or unreachable sandbox: `Sandbox.connect` rejects and
`Sandbox.list` rejects; everything else succeeds as in `oracleA`. -/
def oracleB : Remote :=
  { oracleA with
    connectRes := fun _ => Except.error "sandbox was not found",
    listRes := Except.error "service unavailable" }

/-- An oracle on which the sandbox connects but its `kill()` rejects. -/
def oracleC : Remote :=
  { oracleA with killRes := fun _ => Except.error "kill failed" }

/-- The call environment used by the concrete checks: empty process
environment, clock at 100. -/
def envA : Env := { processEnv := [], now := 100, remote := oracleA }

/-- As `envA` but against the dead-sandbox oracle `oracleB`. -/
def envB : Env := { processEnv := [], now := 100, remote := oracleB }

/-- As `envA` but against the failing-kill oracle `oracleC`. -/
def envC : Env := { processEnv := [], now := 100, remote := oracleC }

/-- An environment carrying one hidden operator variable
(`E2B_CODE_EV_TOKEN`) next to an ordinary one. -/
def envH : Env :=
  { processEnv := [("E2B_CODE_EV_TOKEN", "operator-secret"), ("PATH", "/usr/bin")],
    now := 100, remote := oracleA }

/-- A registry with one live handle for session `s1`, last accessed at 5. -/
def stOne : St := [(some "s1", ⟨⟨"sb1"⟩, 5, []⟩)]

/-- A registry with one live handle for `s1` that tracks one background
command `bg-1`. -/
def stCmd : St := [(some "s1", ⟨⟨"sb1"⟩, 5, [("bg-1", ⟨"bg-1"⟩)]⟩)]

/-- A registry holding one long-idle session (`lastAccessed = 0`) and one
fresh one, for exercising the reaper at time 1000001. -/
def stReap : St :=
  [(some "old", ⟨⟨"sbO"⟩, 0, []⟩), (some "fresh", ⟨⟨"sbF"⟩, 1000000, []⟩)]

/-- Key uniqueness of an association list, the invariant a JavaScript `Map`
maintains by construction. -/
def nodupKeys {κ ν : Type} (m : List (κ × ν)) : Prop :=
  (m.map Prod.fst).Nodup

/-- The operational actions: those dispatched through `getSandboxInfo`. -/
def isOperational (a : Action) : Bool :=
  match a with
  | Action.shell | Action.kill_command | Action.write_file | Action.read_file
  | Action.install | Action.get_file_downloadurl | Action.get_host
  | Action.command_run | Action.start_server | Action.command_list
  | Action.command_kill | Action.processinfo | Action.system_install => true
  | _ => false

theorem beq_false_of_ne {κ : Type} [DecidableEq κ] {a b : κ} (h : ¬ a = b) :
    (a == b) = false := by
  simpa using h

theorem mapGet_mapSet_self {κ ν : Type} [DecidableEq κ] (m : List (κ × ν)) (k : κ) (v : ν) :
    mapGet (mapSet m k v) k = some v := by
  induction m with
  | nil => simp [mapGet, mapSet]
  | cons p rest ih =>
    obtain ⟨k', v'⟩ := p
    by_cases h : k' = k
    · subst h
      simp [mapSet, mapGet]
    · simp only [mapSet, if_neg h, mapGet, List.lookup, beq_false_of_ne (Ne.symm h)]
      exact ih

theorem mapGet_mapSet_ne {κ ν : Type} [DecidableEq κ] (m : List (κ × ν)) (k k' : κ) (v : ν)
    (h : ¬ k' = k) : mapGet (mapSet m k v) k' = mapGet m k' := by
  induction m with
  | nil => simp [mapGet, mapSet, List.lookup, beq_false_of_ne h]
  | cons p rest ih =>
    obtain ⟨k₀, v₀⟩ := p
    by_cases h0 : k₀ = k
    · subst h0
      simp only [mapSet, if_pos rfl, mapGet, List.lookup, beq_false_of_ne h]
    · simp only [mapSet, if_neg h0, mapGet, List.lookup]
      cases hbe : k' == k₀
      · exact ih
      · rfl

theorem mem_keys_mapSet {κ ν : Type} [DecidableEq κ] (m : List (κ × ν)) (k : κ) (v : ν)
    (x : κ) : x ∈ (mapSet m k v).map Prod.fst ↔ x ∈ m.map Prod.fst ∨ x = k := by
  induction m with
  | nil => simp [mapSet]
  | cons p rest ih =>
    obtain ⟨k₀, v₀⟩ := p
    by_cases h0 : k₀ = k
    · subst h0
      have hm : mapSet ((k₀, v₀) :: rest) k₀ v = (k₀, v) :: rest := by
        simp [mapSet]
      rw [hm]
      simp only [List.map_cons, List.mem_cons]
      tauto
    · have hm : mapSet ((k₀, v₀) :: rest) k v = (k₀, v₀) :: mapSet rest k v := by
        simp [mapSet, h0]
      rw [hm]
      simp only [List.map_cons, List.mem_cons, ih]
      tauto

theorem nodupKeys_mapSet {κ ν : Type} [DecidableEq κ] (m : List (κ × ν)) (k : κ) (v : ν)
    (h : nodupKeys m) : nodupKeys (mapSet m k v) := by
  induction m with
  | nil => simp [nodupKeys, mapSet]
  | cons p rest ih =>
    obtain ⟨k₀, v₀⟩ := p
    rw [nodupKeys, List.map_cons, List.nodup_cons] at h
    by_cases h0 : k₀ = k
    · subst h0
      have hm : mapSet ((k₀, v₀) :: rest) k₀ v = (k₀, v) :: rest := by
        simp [mapSet]
      rw [hm, nodupKeys, List.map_cons, List.nodup_cons]
      exact h
    · have hm : mapSet ((k₀, v₀) :: rest) k v = (k₀, v₀) :: mapSet rest k v := by
        simp [mapSet, h0]
      rw [hm, nodupKeys, List.map_cons, List.nodup_cons]
      constructor
      · intro hx
        rcases (mem_keys_mapSet rest k v k₀).mp hx with h1 | h1
        · exact h.1 h1
        · exact h0 h1
      · exact ih h.2

theorem nodupKeys_mapDelete {κ ν : Type} [DecidableEq κ] (m : List (κ × ν)) (k : κ)
    (h : nodupKeys m) : nodupKeys (mapDelete m k) := by
  have hs : List.Sublist ((mapDelete m k).map Prod.fst) (m.map Prod.fst) :=
    (List.filter_sublist m).map Prod.fst
  exact List.Nodup.sublist hs h

theorem lookup_append {κ ν : Type} [DecidableEq κ] (l₁ l₂ : List (κ × ν)) (k : κ) :
    List.lookup k (l₁ ++ l₂) =
      match List.lookup k l₁ with
      | some v => some v
      | none => List.lookup k l₂ := by
  induction l₁ with
  | nil => simp [List.lookup]
  | cons p rest ih =>
    obtain ⟨k₀, v₀⟩ := p
    by_cases h0 : k = k₀
    · subst h0
      simp [List.lookup]
    · simp [List.lookup, beq_false_of_ne h0, ih]

theorem lookup_overridden (a b : EnvList) (k : String) :
    List.lookup k (a.map (fun p => match List.lookup p.1 b with
      | some w => (p.1, w)
      | none => p)) =
      match List.lookup k a with
      | some v => some (match List.lookup k b with
        | some w => w
        | none => v)
      | none => none := by
  induction a with
  | nil => simp [List.lookup]
  | cons p rest ih =>
    obtain ⟨k₀, v₀⟩ := p
    by_cases h0 : k = k₀
    · subst h0
      cases hb : List.lookup k b <;> simp [List.lookup, hb]
    · cases hb : List.lookup k₀ b <;>
        simp [List.lookup, hb, beq_false_of_ne h0, ih]

theorem lookup_filter_unclaimed (a b : EnvList) (k : String) :
    List.lookup k (b.filter (fun p => (List.lookup p.1 a).isNone)) =
      if (List.lookup k a).isNone then List.lookup k b else none := by
  induction b with
  | nil => simp
  | cons p rest ih =>
    obtain ⟨k₀, v₀⟩ := p
    by_cases hk : (List.lookup k₀ a).isNone
    · rw [List.filter_cons_of_pos (by simpa using hk)]
      by_cases h0 : k = k₀
      · subst h0
        simp [List.lookup, hk]
      · simp [List.lookup, beq_false_of_ne h0, ih]
    · rw [List.filter_cons_of_neg (by simpa using hk)]
      by_cases h0 : k = k₀
      · subst h0
        rw [ih]
        simp [List.lookup, hk]
      · simp [List.lookup, beq_false_of_ne h0, ih]

theorem lookup_jsMerge (a b : EnvList) (k : String) :
    List.lookup k (jsMerge a b) =
      match List.lookup k b with
      | some w => some w
      | none => List.lookup k a := by
  rw [jsMerge, lookup_append, lookup_overridden, lookup_filter_unclaimed]
  cases ha : List.lookup k a <;> cases hb : List.lookup k b <;> simp [ha, hb]

theorem jsonField_errEnvelope_success (sid : Option String) (msg : String) :
    jsonField (errEnvelope sid msg) "success" = some (Json.bool false) := by
  cases sid <;> rfl

theorem jsonField_errEnvelope_error (sid : Option String) (msg : String) :
    jsonField (errEnvelope sid msg) "error" = some (Json.str msg) := by
  cases sid <;> rfl

theorem getSandboxInfo_eq_some {now : Int} {st : St} {sid : Option String}
    {info : SandboxInfo} {st1 : St}
    (h : getSandboxInfo now st sid = some (info, st1)) :
    (∃ info0, mapGet st sid = some info0 ∧ info = { info0 with lastAccessed := now }) ∧
    st1 = mapSet st sid info := by
  unfold getSandboxInfo at h
  cases hget : mapGet st sid with
  | none =>
    rw [hget] at h
    exact absurd h (by simp)
  | some info0 =>
    rw [hget] at h
    simp only [Option.some.injEq, Prod.mk.injEq] at h
    obtain ⟨h1, h2⟩ := h
    refine ⟨⟨info0, rfl, h1.symm⟩, ?_⟩
    rw [← h2, h1]

theorem mapHas_mapSet_self {κ ν : Type} [DecidableEq κ] (m : List (κ × ν)) (k : κ) (v : ν) :
    mapHas (mapSet m k v) k = true := by
  unfold mapHas
  rw [show List.lookup k (mapSet m k v) = some v from mapGet_mapSet_self m k v]
  rfl

theorem operationalCase_nodup (E : Env) (i : Input) (st : St) (info : SandboxInfo)
    (ms : Int) (h : nodupKeys st) : nodupKeys (operationalCase E i st info ms).state := by
  cases ha : i.action <;>
    simp only [operationalCase, ha] <;>
    repeat' split
  all_goals
    first
    | exact h
    | exact nodupKeys_mapSet _ _ _ h

theorem dispatchOperational_nodup (E : Env) (i : Input) (st : St) (ms : Int)
    (h : nodupKeys st) : nodupKeys (dispatchOperational E i st ms).state := by
  unfold dispatchOperational
  cases hg : getSandboxInfo E.now st i.sessionId with
  | none => exact h
  | some p =>
    obtain ⟨info, st1⟩ := p
    obtain ⟨-, hst1⟩ := getSandboxInfo_eq_some hg
    subst hst1
    exact operationalCase_nodup _ _ _ _ _ (nodupKeys_mapSet _ _ _ h)

/-- C2: at most one `SessionHandle` per `sessionId` at any time.  The
registry's key uniqueness is preserved by every `_call`; a `create` for a
`sessionId` that already has a live handle returns the `already exists` error
envelope with the registry unchanged and an empty outward-call trace (so no
remote sandbox is requested); and after a `create` that answered
`success: true` the handle is registered, so a second `create` for the same
session without an intervening `kill` fails exactly with `AlreadyExists`. -/
theorem e2b_create_unique :
    (∀ (E : Env) (i : Input) (st : St), nodupKeys st → nodupKeys (callE2B E i st).state) ∧
    (∀ (E : Env) (i : Input) (st : St) (s : String),
      i.action = Action.create → i.sessionId = some s → mapHas st (some s) = true →
      callE2B E i st =
        ⟨errEnvelope (some s) ("Sandbox with sessionId " ++ s ++ " already exists."),
         st, []⟩) ∧
    (∀ (E E' : Env) (i : Input) (st : St) (s : String),
      i.action = Action.create → i.sessionId = some s →
      jsonField (callE2B E i st).json "success" = some (Json.bool true) →
      mapHas (callE2B E i st).state (some s) = true ∧
      callE2B E' i (callE2B E i st).state =
        ⟨errEnvelope (some s) ("Sandbox with sessionId " ++ s ++ " already exists."),
         (callE2B E i st).state, []⟩) := by
  have halready : ∀ (E : Env) (i : Input) (st : St) (s : String),
      i.action = Action.create → i.sessionId = some s → mapHas st (some s) = true →
      callE2B E i st =
        ⟨errEnvelope (some s) ("Sandbox with sessionId " ++ s ++ " already exists."),
         st, []⟩ := by
    intro E i st s ha hs hhas
    simp only [callE2B, ha, hs, hhas, optStrD, Option.getD, if_true]
  refine ⟨?_, halready, ?_⟩
  · intro E i st h
    cases ha : i.action <;> simp only [callE2B, ha] <;> repeat' split
    all_goals
      first
      | exact h
      | exact nodupKeys_mapSet _ _ _ h
      | exact nodupKeys_mapDelete _ _ h
      | exact dispatchOperational_nodup _ _ _ _ h
  · intro E E' i st s ha hs hsucc
    have hnot : mapHas st (some s) = false := by
      cases hv : mapHas st (some s)
      · rfl
      · rw [halready E i st s ha hs hv] at hsucc
        rw [jsonField_errEnvelope_success] at hsucc
        exact absurd hsucc (by simp)
    have hstate : mapHas (callE2B E i st).state (some s) = true := by
      simp [callE2B, ha, hs, hnot] at hsucc ⊢
      cases hc : E.remote.createRes with
      | error msg =>
        rw [hc] at hsucc
        simp [jsonField_errEnvelope_success] at hsucc
      | ok sb =>
        simp only []
        repeat' split
        all_goals simp [mapHas_mapSet_self]
    exact ⟨hstate, halready E' i _ s ha hs hstate⟩

/-- Witness for C2 at concrete inputs: `create` on a session that already has
a handle, and the two-creates scenario from the empty registry. -/
theorem e2b_create_unique_witness :
    (mapHas stOne (some "s1") = true ∧
      callE2B envA { action := Action.create, sessionId := some "s1" } stOne =
        ⟨errEnvelope (some "s1") ("Sandbox with sessionId " ++ "s1" ++ " already exists."),
         stOne, []⟩) ∧
    (mapHas (callE2B envA { action := Action.create, sessionId := some "s1" } []).state
        (some "s1") = true ∧
      callE2B envA { action := Action.create, sessionId := some "s1" }
          (callE2B envA { action := Action.create, sessionId := some "s1" } []).state =
        ⟨errEnvelope (some "s1") ("Sandbox with sessionId " ++ "s1" ++ " already exists."),
         (callE2B envA { action := Action.create, sessionId := some "s1" } []).state, []⟩) :=
  ⟨⟨rfl, e2b_create_unique.2.1 envA { action := Action.create, sessionId := some "s1" }
      stOne "s1" rfl rfl rfl⟩,
   e2b_create_unique.2.2 envA envA { action := Action.create, sessionId := some "s1" }
      [] "s1" rfl rfl rfl⟩

theorem strTruthy_some {s : String} (h : ¬ s = "") : strTruthy (some s) = true := by
  simp [strTruthy, h]

theorem operationalCase_json_obj (E : Env) (i : Input) (st : St) (info : SandboxInfo)
    (ms : Int) : ∃ fs, (operationalCase E i st info ms).json = Json.obj fs := by
  cases ha : i.action <;> simp only [operationalCase, ha] <;> repeat' split
  all_goals exact ⟨_, rfl⟩

theorem dispatchOperational_json_obj (E : Env) (i : Input) (st : St) (ms : Int) :
    ∃ fs, (dispatchOperational E i st ms).json = Json.obj fs := by
  unfold dispatchOperational
  cases hg : getSandboxInfo E.now st i.sessionId with
  | none => exact ⟨_, rfl⟩
  | some p => exact operationalCase_json_obj E i p.2 p.1 ms

theorem dispatchOperational_notfound (E : Env) (i : Input) (st : St) (ms : Int)
    (h : mapGet st i.sessionId = none) :
    dispatchOperational E i st ms =
      ⟨errEnvelope i.sessionId ("No sandbox found for sessionId " ++ optStrD i.sessionId ++
         ". Please create one using the 'create' action."), st, []⟩ := by
  unfold dispatchOperational getSandboxInfo
  rw [h]

/-- C1 (amended): no exception ever propagates past `_call`'s top-level
dispatch: the result is always a single JSON object.  An error thrown during
dispatch — here, any operational action naming an unknown session — is
serialized as `{ sessionId, error, success:false }`.  But the tolerated
failure paths the claim names do not carry an `error` field: a `kill` whose
remote connect fails answers `{ sessionId, success:false, message }` with no
`error` key, a `processinfo` with no matching pid likewise, and a failing
`list_sandboxes` answers `{ error }` with neither `sessionId` nor `success`. -/
theorem e2b_error_envelope_amended :
    (∀ (E : Env) (i : Input) (st : St), ∃ fs, (callE2B E i st).json = Json.obj fs) ∧
    (∀ (E : Env) (i : Input) (st : St) (s : String),
      i.sessionId = some s → isOperational i.action = true → mapGet st (some s) = none →
      callE2B E i st =
        ⟨errEnvelope (some s) ("No sandbox found for sessionId " ++ s ++
           ". Please create one using the 'create' action."), st, []⟩) ∧
    (∀ (E : Env) (i : Input) (st : St) (s b m : String),
      i.action = Action.kill → i.sessionId = some s → i.sandboxId = some b → ¬ b = "" →
      E.remote.connectRes (firstSeg b) = Except.error m →
      callE2B E i st =
        ⟨Json.obj [("sessionId", Json.str s), ("success", Json.bool false),
           ("message", Json.str ("No sandbox found with sandboxId " ++ firstSeg b ++
             " and sessionId " ++ s ++ "."))],
         mapDelete st (some s), [Eff.connect (firstSeg b)]⟩ ∧
      jsonField (callE2B E i st).json "error" = none) ∧
    (∀ (E : Env) (i : Input) (st : St) (s : String) (info : SandboxInfo) (p : Int)
      (l : List ProcInfo),
      i.action = Action.processinfo → i.sessionId = some s → i.pid = some p →
      mapGet st (some s) = some info →
      E.remote.cmdListRes info.sandbox.sandboxId = Except.ok l →
      l.find? (fun q => q.pid == p) = none →
      (callE2B E i st).json =
        Json.obj [("sessionId", Json.str s), ("success", Json.bool false),
          ("message", Json.str ("No process found with PID " ++ toString p ++ "."))] ∧
      jsonField (callE2B E i st).json "error" = none) ∧
    (∀ (E : Env) (i : Input) (st : St) (m : String),
      i.action = Action.list_sandboxes → E.remote.listRes = Except.error m →
      callE2B E i st =
        ⟨Json.obj [("error", Json.str ("Error listing sandboxes: " ++ m))], st,
         [Eff.listSandboxes]⟩) := by
  refine ⟨?_, ?_, ?_, ?_, ?_⟩
  · intro E i st
    cases ha : i.action <;> simp only [callE2B, ha] <;> repeat' split
    all_goals
      first
      | exact ⟨_, rfl⟩
      | exact dispatchOperational_json_obj _ _ _ _
  · intro E i st s hs hop hget
    cases ha : i.action
    all_goals
      first
      | (rw [ha] at hop
         simp only [isOperational] at hop
         exact absurd hop Bool.false_ne_true)
      | (simp only [callE2B, ha]
         rw [dispatchOperational_notfound _ _ _ _ (by rw [hs]; exact hget)]
         simp [optStrD, hs])
  · intro E i st s b m ha hs hb hbne hconn
    have hcall : callE2B E i st =
        ⟨Json.obj [("sessionId", Json.str s), ("success", Json.bool false),
           ("message", Json.str ("No sandbox found with sandboxId " ++ firstSeg b ++
             " and sessionId " ++ s ++ "."))],
         mapDelete st (some s), [Eff.connect (firstSeg b)]⟩ := by
      simp only [callE2B, ha, hs, hb, strTruthy_some hbne, if_true, hconn, optStrD,
        Option.getD, sessionField]
      simp
    exact ⟨hcall, by rw [hcall]; rfl⟩
  · intro E i st s info p l ha hs hp hget hl hfind
    have hcall : (callE2B E i st).json =
        Json.obj [("sessionId", Json.str s), ("success", Json.bool false),
          ("message", Json.str ("No process found with PID " ++ toString p ++ "."))] := by
      simp only [callE2B, ha]
      rw [dispatchOperational.eq_def]
      simp only [getSandboxInfo, hs, hget]
      simp only [operationalCase, ha, hp, hl, hfind, sessionField, hs]
      simp
    exact ⟨hcall, by rw [hcall]; rfl⟩
  · intro E i st m ha hl
    simp only [callE2B, ha, hl]

/-- C1 counterexample: at a concrete failing `kill` (connect to a dead
sandbox rejects) the returned JSON object has `success: false` but no `error`
field, and a failing `list_sandboxes` returns an object with an `error` field
but neither `sessionId` nor `success` — so not every failure envelope contains
`sessionId`, `error` and `success:false` as the claim states. -/
theorem e2b_error_envelope_counterexample :
    jsonField (callE2B envB
      { action := Action.kill, sessionId := some "s1", sandboxId := some "sb-9" }
      stOne).json "success" = some (Json.bool false) ∧
    jsonField (callE2B envB
      { action := Action.kill, sessionId := some "s1", sandboxId := some "sb-9" }
      stOne).json "error" = none ∧
    jsonField (callE2B envB { action := Action.list_sandboxes } stOne).json "error" =
      some (Json.str ("Error listing sandboxes: service unavailable")) ∧
    jsonField (callE2B envB { action := Action.list_sandboxes } stOne).json "sessionId" =
      none :=
  ⟨rfl, rfl, rfl, rfl⟩

/-- Witness for C1 (amended) at concrete inputs: an unknown-session
`read_file` is serialized as the catch envelope, a failing `kill` carries no
`error` field, a `processinfo` miss carries no `error` field, and a failing
`list_sandboxes` returns the bare `error` object. -/
theorem e2b_error_envelope_amended_witness :
    (callE2B envB { action := Action.read_file, sessionId := some "nosuch" } [] =
      ⟨errEnvelope (some "nosuch") ("No sandbox found for sessionId " ++ "nosuch" ++
         ". Please create one using the 'create' action."), [], []⟩) ∧
    jsonField (callE2B envB
      { action := Action.kill, sessionId := some "s1", sandboxId := some "sb-9" }
      stOne).json "error" = none ∧
    jsonField (callE2B envA
      { action := Action.processinfo, sessionId := some "s1", pid := some 7 }
      stOne).json "error" = none ∧
    callE2B envB { action := Action.list_sandboxes } stOne =
      ⟨Json.obj [("error", Json.str ("Error listing sandboxes: " ++ "service unavailable"))],
       stOne, [Eff.listSandboxes]⟩ :=
  ⟨e2b_error_envelope_amended.2.1 envB
     { action := Action.read_file, sessionId := some "nosuch" } [] "nosuch" rfl rfl rfl,
   (e2b_error_envelope_amended.2.2.1 envB
     { action := Action.kill, sessionId := some "s1", sandboxId := some "sb-9" }
     stOne "s1" "sb-9" "sandbox was not found" rfl rfl rfl (by decide) rfl).2,
   (e2b_error_envelope_amended.2.2.2.1 envA
     { action := Action.processinfo, sessionId := some "s1", pid := some 7 }
     stOne "s1" ⟨⟨"sb1"⟩, 5, []⟩ 7 [⟨42, "sleep 5"⟩] rfl rfl rfl rfl rfl rfl).2,
   e2b_error_envelope_amended.2.2.2.2 envB { action := Action.list_sandboxes } stOne
     "service unavailable" rfl rfl⟩

theorem mapHas_mapDelete_self {κ ν : Type} [DecidableEq κ] (m : List (κ × ν)) (k : κ) :
    mapHas (mapDelete m k) k = false := by
  induction m with
  | nil => rfl
  | cons p rest ih =>
    obtain ⟨k₀, v₀⟩ := p
    by_cases h0 : k₀ = k
    · subst h0
      simpa [mapDelete] using ih
    · simpa [mapDelete, h0, mapHas, List.lookup, beq_false_of_ne (Ne.symm h0)] using ih

/-- C5: `kill` of an already-dead or unreachable sandbox never throws.  When
the remote connect rejects, the call — from any registry — returns the
`success:false` message envelope, evicts the entry for the supplied
`sessionId`, and leaves no handle behind; since this holds for every starting
registry, two `kill` calls in succession both return that envelope, the
second included.  When the connect succeeds but the remote `kill()` rejects,
the call likewise returns a `success:false` envelope and evicts the entry. -/
theorem e2b_kill_idempotent (E : Env) (st : St) (s b : String) (hbne : ¬ b = "") :
    (∀ m, E.remote.connectRes (firstSeg b) = Except.error m →
      ∀ st' : St,
        callE2B E { action := Action.kill, sessionId := some s, sandboxId := some b } st' =
          ⟨Json.obj [("sessionId", Json.str s), ("success", Json.bool false),
             ("message", Json.str ("No sandbox found with sandboxId " ++ firstSeg b ++
               " and sessionId " ++ s ++ "."))],
           mapDelete st' (some s), [Eff.connect (firstSeg b)]⟩ ∧
        mapHas (callE2B E
          { action := Action.kill, sessionId := some s, sandboxId := some b } st').state
          (some s) = false) ∧
    (∀ m', E.remote.connectRes (firstSeg b) = Except.ok () →
      E.remote.killRes (firstSeg b) = Except.error m' →
      callE2B E { action := Action.kill, sessionId := some s, sandboxId := some b } st =
        ⟨Json.obj [("sessionId", Json.str s), ("success", Json.bool false),
           ("message", Json.str ("Failed to kill sandbox with sandboxId " ++ firstSeg b ++
             " and sessionId " ++ s ++ "."))],
         mapDelete st (some s),
         [Eff.connect (firstSeg b), Eff.sandboxKill (firstSeg b)]⟩ ∧
      mapHas (callE2B E
        { action := Action.kill, sessionId := some s, sandboxId := some b } st).state
        (some s) = false) := by
  constructor
  · intro m hconn st'
    have he : callE2B E
        { action := Action.kill, sessionId := some s, sandboxId := some b } st' =
        ⟨Json.obj [("sessionId", Json.str s), ("success", Json.bool false),
           ("message", Json.str ("No sandbox found with sandboxId " ++ firstSeg b ++
             " and sessionId " ++ s ++ "."))],
         mapDelete st' (some s), [Eff.connect (firstSeg b)]⟩ := by
      simp only [callE2B, strTruthy_some hbne, if_true, hconn, optStrD, Option.getD,
        sessionField]
      simp
    exact ⟨he, by rw [he]; exact mapHas_mapDelete_self _ _⟩
  · intro m' hconn hkill
    have he : callE2B E
        { action := Action.kill, sessionId := some s, sandboxId := some b } st =
        ⟨Json.obj [("sessionId", Json.str s), ("success", Json.bool false),
           ("message", Json.str ("Failed to kill sandbox with sandboxId " ++ firstSeg b ++
             " and sessionId " ++ s ++ "."))],
         mapDelete st (some s),
         [Eff.connect (firstSeg b), Eff.sandboxKill (firstSeg b)]⟩ := by
      simp only [callE2B, strTruthy_some hbne, if_true, hconn, hkill, optStrD, Option.getD,
        sessionField]
      simp
    exact ⟨he, by rw [he]; exact mapHas_mapDelete_self _ _⟩

/-- Witness for C5: against the dead-sandbox oracle, killing `sb-9` twice in
succession from `stOne`, and against the failing-kill oracle once. -/
theorem e2b_kill_idempotent_witness :
    (callE2B envB { action := Action.kill, sessionId := some "s1", sandboxId := some "sb-9" }
        stOne =
      ⟨Json.obj [("sessionId", Json.str "s1"), ("success", Json.bool false),
         ("message", Json.str ("No sandbox found with sandboxId " ++ firstSeg "sb-9" ++
           " and sessionId " ++ "s1" ++ "."))],
       mapDelete stOne (some "s1"), [Eff.connect (firstSeg "sb-9")]⟩) ∧
    (callE2B envB { action := Action.kill, sessionId := some "s1", sandboxId := some "sb-9" }
        (mapDelete stOne (some "s1")) =
      ⟨Json.obj [("sessionId", Json.str "s1"), ("success", Json.bool false),
         ("message", Json.str ("No sandbox found with sandboxId " ++ firstSeg "sb-9" ++
           " and sessionId " ++ "s1" ++ "."))],
       mapDelete (mapDelete stOne (some "s1")) (some "s1"), [Eff.connect (firstSeg "sb-9")]⟩) ∧
    (callE2B envC { action := Action.kill, sessionId := some "s1", sandboxId := some "sb-9" }
        stOne =
      ⟨Json.obj [("sessionId", Json.str "s1"), ("success", Json.bool false),
         ("message", Json.str ("Failed to kill sandbox with sandboxId " ++ firstSeg "sb-9" ++
           " and sessionId " ++ "s1" ++ "."))],
       mapDelete stOne (some "s1"),
       [Eff.connect (firstSeg "sb-9"), Eff.sandboxKill (firstSeg "sb-9")]⟩) :=
  ⟨((e2b_kill_idempotent envB stOne "s1" "sb-9" (by decide)).1 "sandbox was not found"
      rfl stOne).1,
   ((e2b_kill_idempotent envB stOne "s1" "sb-9" (by decide)).1 "sandbox was not found"
      rfl (mapDelete stOne (some "s1"))).1,
   ((e2b_kill_idempotent envC stOne "s1" "sb-9" (by decide)).2 "kill failed" rfl rfl).1⟩

/-- C3 (code bug): a successful `set_timeout` for a live session sets the
remote sandbox's time-to-live to `timeout * 60_000` ms and answers
`success:true`, but performs no persistence write at all — the trace contains
no `setTimeoutForSandbox` (`dbSetTimeoutForSandbox`) call, although the
repository's own test suite asserts that `set_timeout` calls it; and with no
live handle it fails with the `No sandbox found` envelope, changing nothing. -/
theorem e2b_set_timeout_not_persisted :
    callE2B envA { action := Action.set_timeout, sessionId := some "s1", timeout := some 1 }
        stOne =
      ⟨Json.obj [("sessionId", Json.str "s1"), ("success", Json.bool true),
         ("message", Json.str "Sandbox timeout updated to 1 minutes.")],
       stOne, [Eff.remoteSetTimeout "sb1" 60000]⟩ ∧
    (callE2B envA { action := Action.set_timeout, sessionId := some "s1", timeout := some 1 }
        stOne).trace.all (fun e => !(isDbWrite e)) = true ∧
    callE2B envA { action := Action.set_timeout, sessionId := some "nf", timeout := some 1 }
        [] =
      ⟨errEnvelope (some "nf") "No sandbox found with sessionId nf.", [], []⟩ :=
  ⟨rfl, rfl, rfl⟩

/-- C4 (code bug): a successful `create` registers the handle and returns
`success:true` with the sandbox id, the `whoami` probe as `currentUser` and
the `pwd` probe as `currentDirectory` — but the trace contains no
`createSandbox` (`dbCreateSandbox`) persistence write, although the
repository's own test suite asserts that `create` inserts a `SandboxRecord`. -/
theorem e2b_create_not_persisted :
    callE2B envA
        { action := Action.create, sessionId := some "test-sandbox-2", timeout := some 1 }
        [] =
      ⟨Json.obj [("sessionId", Json.str "test-sandbox-2"),
         ("sandboxId", Json.str "ib1v2xb0f36jzttf1zyif-4b1cc5d5"),
         ("currentUser", Json.str "sandbox-user"),
         ("currentDirectory", Json.str "/home/sandbox"),
         ("success", Json.bool true),
         ("message", Json.str
           "Sandbox created from template 'ubuntu-latest' with timeout 1 minutes.")],
       [(some "test-sandbox-2", ⟨⟨"ib1v2xb0f36jzttf1zyif-4b1cc5d5"⟩, 100, []⟩)],
       [Eff.sandboxCreate "ubuntu-latest" 60000 none,
        Eff.run "ib1v2xb0f36jzttf1zyif-4b1cc5d5" "whoami" {},
        Eff.run "ib1v2xb0f36jzttf1zyif-4b1cc5d5" "pwd" {}]⟩ ∧
    (callE2B envA
        { action := Action.create, sessionId := some "test-sandbox-2", timeout := some 1 }
        []).trace.all (fun e => !(isDbWrite e)) = true :=
  ⟨rfl, rfl⟩

theorem operationalCase_entry (E : Env) (i : Input) (st : St) (info : SandboxInfo)
    (ms : Int) (h : mapGet st i.sessionId = some info) :
    ∃ info', mapGet (operationalCase E i st info ms).state i.sessionId = some info' ∧
      info'.lastAccessed = info.lastAccessed := by
  cases ha : i.action <;> simp only [operationalCase, ha] <;> repeat' split
  all_goals
    first
    | exact ⟨info, h, rfl⟩
    | exact ⟨_, mapGet_mapSet_self _ _ _, rfl⟩

theorem dispatchOperational_lastAccessed (E : Env) (i : Input) (st : St) (ms : Int)
    (s : String) (info : SandboxInfo)
    (hs : i.sessionId = some s) (h : mapGet st (some s) = some info) :
    ∃ info', mapGet (dispatchOperational E i st ms).state (some s) = some info' ∧
      info'.lastAccessed = E.now := by
  unfold dispatchOperational
  cases hg : getSandboxInfo E.now st i.sessionId with
  | none =>
    unfold getSandboxInfo at hg
    rw [hs, h] at hg
    exact absurd hg (by simp)
  | some p =>
    obtain ⟨info1, st1⟩ := p
    obtain ⟨⟨info0, hget0, hinfo⟩, hst1⟩ := getSandboxInfo_eq_some hg
    subst hst1
    have hh : mapGet (mapSet st i.sessionId info1) i.sessionId = some info1 :=
      mapGet_mapSet_self _ _ _
    obtain ⟨info', h1, h2⟩ := operationalCase_entry E i _ info1 ms hh
    refine ⟨info', by rw [← hs]; exact h1, ?_⟩
    rw [h2, hinfo]

/-- C8 counterexample: a successful `set_timeout` against a live handle does
not update `lastAccessedAt` — the registry is returned unchanged, with the
entry still carrying its old timestamp 5 although the call succeeded at time
100. -/
theorem e2b_last_accessed_counterexample :
    jsonField (callE2B envA
      { action := Action.set_timeout, sessionId := some "s1", timeout := some 2 }
      stOne).json "success" = some (Json.bool true) ∧
    (callE2B envA
      { action := Action.set_timeout, sessionId := some "s1", timeout := some 2 }
      stOne).state = stOne ∧
    mapGet stOne (some "s1") = some ⟨⟨"sb1"⟩, 5, []⟩ ∧
    envA.now = 100 :=
  ⟨rfl, rfl, rfl, rfl⟩

/-- C8 (amended): every operational action — those resolved through
`getSandboxInfo` — stamps the session handle's `lastAccessedAt` with the
current time (whether or not the action then succeeds), but `set_timeout`
never modifies the registry at all, so a successful `set_timeout` leaves
`lastAccessedAt` unchanged. -/
theorem e2b_last_accessed_amended :
    (∀ (E : Env) (i : Input) (st : St) (s : String) (info : SandboxInfo),
      i.sessionId = some s → isOperational i.action = true →
      mapGet st (some s) = some info →
      ∃ info', mapGet (callE2B E i st).state (some s) = some info' ∧
        info'.lastAccessed = E.now) ∧
    (∀ (E : Env) (i : Input) (st : St),
      i.action = Action.set_timeout → (callE2B E i st).state = st) := by
  constructor
  · intro E i st s info hs hop hget
    cases ha : i.action
    all_goals
      first
      | (rw [ha] at hop
         simp only [isOperational] at hop
         exact absurd hop Bool.false_ne_true)
      | (simp only [callE2B, ha]
         exact dispatchOperational_lastAccessed E i st _ s info hs hget)
  · intro E i st ha
    simp only [callE2B, ha]
    repeat' split
    all_goals rfl

/-- Witness for C8 (amended): a `read_file` against `stOne` leaves the handle
stamped with the call time 100, and a concrete `set_timeout` leaves the
registry untouched. -/
theorem e2b_last_accessed_amended_witness :
    (∃ info', mapGet (callE2B envA
        { action := Action.read_file, sessionId := some "s1", filePath := some "/tmp/x" }
        stOne).state (some "s1") = some info' ∧
      info'.lastAccessed = envA.now) ∧
    (callE2B envA { action := Action.set_timeout, sessionId := some "s1", timeout := some 2 }
        stOne).state = stOne :=
  ⟨e2b_last_accessed_amended.1 envA
     { action := Action.read_file, sessionId := some "s1", filePath := some "/tmp/x" }
     stOne "s1" ⟨⟨"sb1"⟩, 5, []⟩ rfl rfl rfl,
   e2b_last_accessed_amended.2 envA
     { action := Action.set_timeout, sessionId := some "s1", timeout := some 2 } stOne rfl⟩

theorem cleanup_state_eq (now : Int) (killRes : String → Except String Unit) (st : St) :
    (cleanupInactiveSandboxes now killRes st).1 =
      st.filter (fun e => !(decide (10 * 60 * 1000 < now - e.2.lastAccessed))) := by
  induction st with
  | nil => rfl
  | cons e rest ih =>
    obtain ⟨k, info⟩ := e
    by_cases hc : (600000 : Int) < now - info.lastAccessed
    · simp [cleanupInactiveSandboxes, hc, ih]
    · simp [cleanupInactiveSandboxes, hc, ih]

theorem cleanup_kills (now : Int) (killRes : String → Except String Unit) (st : St) :
    ∀ e ∈ st, 10 * 60 * 1000 < now - e.2.lastAccessed →
      Eff.reaperKill e.2.sandbox.sandboxId (killRes e.2.sandbox.sandboxId).toBool ∈
        (cleanupInactiveSandboxes now killRes st).2 := by
  induction st with
  | nil => intro e he; exact absurd he (List.not_mem_nil e)
  | cons p rest ih =>
    intro e he hstale
    norm_num at hstale
    obtain ⟨k, info⟩ := p
    rcases List.mem_cons.mp he with he1 | he1
    · subst he1
      simp [cleanupInactiveSandboxes, hstale]
    · by_cases hc : (600000 : Int) < now - info.lastAccessed
      · have hmem := ih e he1 (by norm_num; exact hstale)
        simp [cleanupInactiveSandboxes, hc]
        right
        simpa using hmem
      · have hmem := ih e he1 (by norm_num; exact hstale)
        simp [cleanupInactiveSandboxes, hc]
        simpa using hmem

/-- C9: one sweep of the idle reaper `cleanupInactiveSandboxes` leaves exactly
the entries idle for at most `10 * 60 * 1000` ms (10 minutes), in order and
untouched; no entry whose idle duration exceeds the threshold survives; every
evicted entry's remote sandbox receives a best-effort kill attempt whose
outcome (`killRes`) does not influence the eviction — the surviving registry
is a pure filter independent of the kill results. -/
theorem e2b_reaper_sweep (now : Int) (killRes : String → Except String Unit) (st : St) :
    (cleanupInactiveSandboxes now killRes st).1 =
      st.filter (fun e => !(decide (10 * 60 * 1000 < now - e.2.lastAccessed))) ∧
    (∀ e ∈ (cleanupInactiveSandboxes now killRes st).1,
      ¬ 10 * 60 * 1000 < now - e.2.lastAccessed) ∧
    (∀ e ∈ st, 10 * 60 * 1000 < now - e.2.lastAccessed →
      Eff.reaperKill e.2.sandbox.sandboxId (killRes e.2.sandbox.sandboxId).toBool ∈
        (cleanupInactiveSandboxes now killRes st).2) ∧
    (∀ killRes' : String → Except String Unit,
      (cleanupInactiveSandboxes now killRes st).1 =
        (cleanupInactiveSandboxes now killRes' st).1) := by
  refine ⟨cleanup_state_eq now killRes st, ?_, cleanup_kills now killRes st, ?_⟩
  · intro e he
    rw [cleanup_state_eq] at he
    have := List.of_mem_filter he
    simpa using this
  · intro killRes'
    rw [cleanup_state_eq, cleanup_state_eq]

/-- Witness for C9: sweeping `stReap` at time 1000001 with a kill oracle that
always fails still evicts the stale entry (kill attempted, failure swallowed)
and keeps the fresh one untouched. -/
theorem e2b_reaper_sweep_witness :
    (cleanupInactiveSandboxes 1000001 (fun _ => Except.error "gone") stReap).1 =
      [(some "fresh", ⟨⟨"sbF"⟩, 1000000, []⟩)] ∧
    Eff.reaperKill "sbO" false ∈
      (cleanupInactiveSandboxes 1000001 (fun _ => Except.error "gone") stReap).2 :=
  ⟨by rw [(e2b_reaper_sweep 1000001 (fun _ => Except.error "gone") stReap).1]; rfl,
   (e2b_reaper_sweep 1000001 (fun _ => Except.error "gone") stReap).2.2.1
     (some "old", ⟨⟨"sbO"⟩, 0, []⟩) (by simp [stReap]) (by norm_num)⟩

/-- C6: background command tracking.  Starting a background command (`shell`
or `command_run` with `background:true`) on a live session returns the opaque
`commandId` handed out by the remote service and stores the handle in that
session's command map under that id; a `kill_command` with a tracked id
terminates the remote process and removes the map entry, so it succeeds at
most once; and a `kill_command` whose id is absent from the map — never
issued or already reaped — fails with the `No background command found`
envelope. -/
theorem e2b_background_command_tracking :
    (∀ (E : Env) (st : St) (s c : String) (info : SandboxInfo) (r : RunResult),
      mapGet st (some s) = some info → ¬ c = "" →
      E.remote.runRes info.sandbox.sandboxId c
          { background := some true, envs := mergeEnvOpt E.processEnv none } =
        Except.ok r →
      (callE2B E { action := Action.shell, sessionId := some s, cmd := some c, background := some true } st).json =
        Json.obj [("sessionId", Json.str s), ("commandId", Json.str r.id),
          ("success", Json.bool true),
          ("message", Json.str ("Background command started with ID " ++ r.id))] ∧
      mapGet (callE2B E { action := Action.shell, sessionId := some s, cmd := some c, background := some true } st).state (some s) =
        some ⟨info.sandbox, E.now, mapSet info.commands r.id ⟨r.id⟩⟩) ∧
    (∀ (E : Env) (st : St) (s c : String) (info : SandboxInfo) (r : RunResult),
      mapGet st (some s) = some info → ¬ c = "" →
      E.remote.runRes info.sandbox.sandboxId c
          { background := some true, timeoutMs := some 30000,
            envs := mergeEnvOpt E.processEnv none } =
        Except.ok r →
      (callE2B E { action := Action.command_run, sessionId := some s, cmd := some c, background := some true } st).json =
        Json.obj [("sessionId", Json.str s), ("commandId", Json.str r.id),
          ("success", Json.bool true),
          ("message", Json.str ("Background command started with ID " ++ r.id))] ∧
      mapGet (callE2B E { action := Action.command_run, sessionId := some s, cmd := some c, background := some true } st).state (some s) =
        some ⟨info.sandbox, E.now, mapSet info.commands r.id ⟨r.id⟩⟩) ∧
    (∀ (E : Env) (st : St) (s cid : String) (info : SandboxInfo) (h : CommandHandle),
      mapGet st (some s) = some info → ¬ cid = "" →
      mapGet info.commands cid = some h →
      E.remote.cmdKillRes cid = Except.ok () →
      (callE2B E { action := Action.kill_command, sessionId := some s, commandId := some cid } st).json =
        Json.obj [("sessionId", Json.str s), ("success", Json.bool true),
          ("message", Json.str ("Background command with ID " ++ cid ++
            " has been killed."))] ∧
      mapGet (callE2B E { action := Action.kill_command, sessionId := some s, commandId := some cid } st).state (some s) =
        some ⟨info.sandbox, E.now, mapDelete info.commands cid⟩) ∧
    (∀ (E : Env) (st : St) (s cid : String) (info : SandboxInfo),
      mapGet st (some s) = some info → ¬ cid = "" →
      mapGet info.commands cid = none →
      callE2B E { action := Action.kill_command, sessionId := some s, commandId := some cid } st =
        ⟨errEnvelope (some s) ("No background command found with ID " ++ cid ++ "."),
         mapSet st (some s) ⟨info.sandbox, E.now, info.commands⟩, []⟩) := by
  refine ⟨?_, ?_, ?_, ?_⟩
  · intro E st s c info r hget hc hrun
    have he : callE2B E { action := Action.shell, sessionId := some s, cmd := some c, background := some true } st =
        ⟨Json.obj [("sessionId", Json.str s), ("commandId", Json.str r.id),
           ("success", Json.bool true),
           ("message", Json.str ("Background command started with ID " ++ r.id))],
         mapSet (mapSet st (some s) { info with lastAccessed := E.now })
           (some s) ⟨info.sandbox, E.now, mapSet info.commands r.id ⟨r.id⟩⟩,
         [Eff.run info.sandbox.sandboxId c
           { background := some true, envs := mergeEnvOpt E.processEnv none }]⟩ := by
      simp only [callE2B]
      rw [dispatchOperational.eq_def]
      simp only [getSandboxInfo, hget]
      simp only [operationalCase, strTruthy_some hc, if_true, Option.getD, hrun,
        sessionField]
      simp
    rw [he]
    exact ⟨rfl, mapGet_mapSet_self _ _ _⟩
  · intro E st s c info r hget hc hrun
    have he : callE2B E { action := Action.command_run, sessionId := some s, cmd := some c, background := some true } st =
        ⟨Json.obj [("sessionId", Json.str s), ("commandId", Json.str r.id),
           ("success", Json.bool true),
           ("message", Json.str ("Background command started with ID " ++ r.id))],
         mapSet (mapSet st (some s) { info with lastAccessed := E.now })
           (some s) ⟨info.sandbox, E.now, mapSet info.commands r.id ⟨r.id⟩⟩,
         [Eff.run info.sandbox.sandboxId c
           { background := some true, timeoutMs := some 30000,
             envs := mergeEnvOpt E.processEnv none }]⟩ := by
      simp only [callE2B]
      rw [dispatchOperational.eq_def]
      simp only [getSandboxInfo, hget]
      simp only [operationalCase, strTruthy_some hc, if_true, Option.getD, sessionField]
      norm_num
      rw [hrun]
    rw [he]
    exact ⟨rfl, mapGet_mapSet_self _ _ _⟩
  · intro E st s cid info h hget hcid hcmd hkill
    have he : callE2B E { action := Action.kill_command, sessionId := some s, commandId := some cid } st =
        ⟨Json.obj [("sessionId", Json.str s), ("success", Json.bool true),
           ("message", Json.str ("Background command with ID " ++ cid ++
             " has been killed."))],
         mapSet (mapSet st (some s) { info with lastAccessed := E.now })
           (some s) ⟨info.sandbox, E.now, mapDelete info.commands cid⟩,
         [Eff.commandKill cid]⟩ := by
      simp only [callE2B]
      rw [dispatchOperational.eq_def]
      simp only [getSandboxInfo, hget]
      simp only [operationalCase, strTruthy_some hcid, if_true, Option.getD, hcmd, hkill,
        sessionField]
      simp
    rw [he]
    exact ⟨rfl, mapGet_mapSet_self _ _ _⟩
  · intro E st s cid info hget hcid hcmd
    simp only [callE2B]
    rw [dispatchOperational.eq_def]
    simp only [getSandboxInfo, hget]
    simp only [operationalCase, strTruthy_some hcid, if_true, Option.getD, hcmd,
      sessionField]
    simp

/-- Witness for C6: starting `sleep 99` in the background on `stOne` tracks
`bg-1`; killing `bg-1` on `stCmd` succeeds and removes it; killing it again
(or any unknown id) on the resulting map fails with `NotFound`. -/
theorem e2b_background_command_tracking_witness :
    ((callE2B envA { action := Action.shell, sessionId := some "s1", cmd := some "sleep 99", background := some true } stOne).json =
      Json.obj [("sessionId", Json.str "s1"), ("commandId", Json.str "bg-1"),
        ("success", Json.bool true),
        ("message", Json.str ("Background command started with ID " ++ "bg-1"))]) ∧
    (mapGet (callE2B envA { action := Action.kill_command, sessionId := some "s1", commandId := some "bg-1" } stCmd).state (some "s1") =
      some ⟨⟨"sb1"⟩, 100, mapDelete [("bg-1", ⟨"bg-1"⟩)] "bg-1"⟩) ∧
    (callE2B envA { action := Action.kill_command, sessionId := some "s1", commandId := some "bg-1" } stOne =
      ⟨errEnvelope (some "s1") ("No background command found with ID " ++ "bg-1" ++ "."),
       mapSet stOne (some "s1") ⟨⟨"sb1"⟩, 100, []⟩, []⟩) :=
  ⟨(e2b_background_command_tracking.1 envA stOne "s1" "sleep 99" ⟨⟨"sb1"⟩, 5, []⟩
      ⟨"out", "", 0, "bg-1"⟩ rfl (by decide) rfl).1,
   (e2b_background_command_tracking.2.2.1 envA stCmd "s1" "bg-1"
      ⟨⟨"sb1"⟩, 5, [("bg-1", ⟨"bg-1"⟩)]⟩ ⟨"bg-1"⟩ rfl (by decide) rfl rfl).2,
   e2b_background_command_tracking.2.2.2 envA stOne "s1" "bg-1" ⟨⟨"sb1"⟩, 5, []⟩
     rfl (by decide) rfl⟩

/-- C7: environment merging.  The merged environment `{...hidden, ...envs}` is
caller-wins: for a key both sides define, the lookup yields the
caller-supplied value, and every hidden `E2B_CODE_EV_`-derived variable whose
key the caller did not supply is still present.  `create` passes exactly
`mergeEnvOpt processEnv envs` to the remote sandbox creation, and a foreground
`command_run` passes it in the run options; whenever there is a hidden
variable or the caller supplied `envs`, that option is exactly the
`jsMerge` of the stripped hidden variables under the caller's variables. -/
theorem e2b_env_merge_precedence :
    (∀ (penv envs : EnvList) (k v : String),
      List.lookup k envs = some v →
      List.lookup k (jsMerge (getHiddenEnvVars penv) envs) = some v) ∧
    (∀ (penv envs : EnvList) (k : String),
      List.lookup k envs = none →
      List.lookup k (jsMerge (getHiddenEnvVars penv) envs) =
        List.lookup k (getHiddenEnvVars penv)) ∧
    (∀ (E : Env) (st : St) (s : String) (envs : Option EnvList),
      mapHas st (some s) = false →
      (callE2B E { action := Action.create, sessionId := some s, envs := envs } st).trace.head? =
        some (Eff.sandboxCreate "ubuntu-latest" 216000000 (mergeEnvOpt E.processEnv envs))) ∧
    (∀ (E : Env) (st : St) (s c : String) (envs : Option EnvList) (info : SandboxInfo),
      mapGet st (some s) = some info → ¬ c = "" →
      (callE2B E { action := Action.command_run, sessionId := some s, cmd := some c, envs := envs } st).trace =
        [Eff.run info.sandbox.sandboxId c
          { background := some false, timeoutMs := some 30000,
            envs := mergeEnvOpt E.processEnv envs }]) ∧
    (∀ (penv : EnvList) (envs : Option EnvList),
      0 < (getHiddenEnvVars penv).length ∨ envs.isSome = true →
      mergeEnvOpt penv envs = some (jsMerge (getHiddenEnvVars penv) (envs.getD []))) := by
  refine ⟨?_, ?_, ?_, ?_, ?_⟩
  · intro penv envs k v h
    rw [lookup_jsMerge, h]
  · intro penv envs k h
    rw [lookup_jsMerge, h]
  · intro E st s envs hnot
    simp only [callE2B, hnot]
    repeat' split
    all_goals first
      | rfl
      | simp_all [strTruthy]
  · intro E st s c envs info hget hc
    simp only [callE2B]
    rw [dispatchOperational.eq_def]
    simp only [getSandboxInfo, hget]
    simp only [operationalCase, strTruthy_some hc, if_true, Option.getD, sessionField]
    norm_num
    repeat' split
    all_goals rfl
  · intro penv envs h
    rw [mergeEnvOpt, if_pos h]

/-- Witness for C7: with the hidden variable `E2B_CODE_EV_TOKEN` in the
process environment, a caller-supplied `TOKEN` wins the merge, a key the
caller does not supply keeps the hidden value, and concrete `create` and
`command_run` calls carry exactly the merged environment. -/
theorem e2b_env_merge_precedence_witness :
    List.lookup "TOKEN"
        (jsMerge (getHiddenEnvVars envH.processEnv) [("TOKEN", "caller-value")]) =
      some "caller-value" ∧
    List.lookup "TOKEN" (jsMerge (getHiddenEnvVars envH.processEnv) [("OTHER", "x")]) =
      List.lookup "TOKEN" (getHiddenEnvVars envH.processEnv) ∧
    (callE2B envH { action := Action.create, sessionId := some "s9", envs := some [("TOKEN", "caller-value")] } []).trace.head? =
      some (Eff.sandboxCreate "ubuntu-latest" 216000000
        (mergeEnvOpt envH.processEnv (some [("TOKEN", "caller-value")]))) ∧
    (callE2B envH { action := Action.command_run, sessionId := some "s1", cmd := some "env", envs := some [("TOKEN", "caller-value")] } stOne).trace =
      [Eff.run "sb1" "env"
        { background := some false, timeoutMs := some 30000,
          envs := mergeEnvOpt envH.processEnv (some [("TOKEN", "caller-value")]) }] :=
  ⟨e2b_env_merge_precedence.1 envH.processEnv [("TOKEN", "caller-value")]
     "TOKEN" "caller-value" rfl,
   e2b_env_merge_precedence.2.1 envH.processEnv [("OTHER", "x")] "TOKEN" rfl,
   e2b_env_merge_precedence.2.2.1 envH [] "s9" (some [("TOKEN", "caller-value")]) rfl,
   e2b_env_merge_precedence.2.2.2.1 envH stOne "s1" "env"
     (some [("TOKEN", "caller-value")]) ⟨⟨"sb1"⟩, 5, []⟩ rfl (by decide)⟩

/-- C10 counterexample: a caller-supplied `timeout` of `0` (which is smaller
than 1) to `set_timeout` on a live session is not silently clamped up to 1:
the call fails with the `timeout is required` error envelope, because `0` is
falsy in the `!timeout` required-parameter check. -/
theorem e2b_timeout_clamp_counterexample :
    callE2B envA { action := Action.set_timeout, sessionId := some "s1", timeout := some 0 }
        stOne =
      ⟨errEnvelope (some "s1") "`timeout` is required for `set_timeout` action.",
       stOne, []⟩ :=
  rfl

/-- C10 (amended): the silent clamps hold for `create` (any `timeout < 1`
behaves exactly as `timeout = 1`: the whole call result, response included,
is identical, so clamping is unreported), for `command_run` and
`start_server` (any `timeoutMs < 1000` behaves exactly as `timeoutMs =
1000`), and for `set_timeout` with a negative `timeout`; but a `set_timeout`
with `timeout = 0` on a live session is rejected with the `timeout is
required` envelope instead of being clamped. -/
theorem e2b_timeout_clamp_amended :
    (∀ (E : Env) (i : Input) (st : St) (t : Int),
      i.action = Action.create → i.timeout = some t → t < 1 →
      callE2B E i st = callE2B E { i with timeout := some 1 } st) ∧
    (∀ (E : Env) (i : Input) (st : St) (m : Int),
      i.action = Action.command_run → i.timeoutMs = some m → m < 1000 →
      callE2B E i st = callE2B E { i with timeoutMs := some 1000 } st) ∧
    (∀ (E : Env) (i : Input) (st : St) (m : Int),
      i.action = Action.start_server → i.timeoutMs = some m → m < 1000 →
      callE2B E i st = callE2B E { i with timeoutMs := some 1000 } st) ∧
    (∀ (E : Env) (i : Input) (st : St) (t : Int),
      i.action = Action.set_timeout → i.timeout = some t → t < 1 → ¬ t = 0 →
      callE2B E i st = callE2B E { i with timeout := some 1 } st) ∧
    (∀ (E : Env) (st : St) (s : String) (info : SandboxInfo),
      mapGet st (some s) = some info →
      callE2B E { action := Action.set_timeout, sessionId := some s, timeout := some 0 } st =
        ⟨errEnvelope (some s) "`timeout` is required for `set_timeout` action.",
         st, []⟩) := by
  refine ⟨?_, ?_, ?_, ?_, ?_⟩
  · intro E i st t ha ht hlt
    simp only [callE2B, ha, ht, Option.getD_some]
    rw [if_pos hlt]
    norm_num
  · intro E i st m ha ht hlt
    obtain ⟨a, f1, f2, f3, f4, f5, f6, f7, tms, f9, f10, f11, f12, f13, f14, f15, f16,
      f17, f18, f19⟩ := i
    simp only at ha ht
    subst ha
    subst ht
    simp only [callE2B, Option.getD_some]
    rw [if_pos hlt]
    norm_num
    rfl
  · intro E i st m ha ht hlt
    obtain ⟨a, f1, f2, f3, f4, f5, f6, f7, tms, f9, f10, f11, f12, f13, f14, f15, f16,
      f17, f18, f19⟩ := i
    simp only at ha ht
    subst ha
    subst ht
    simp only [callE2B, Option.getD_some]
    rw [if_pos hlt]
    norm_num
    rfl
  · intro E i st t ha ht hlt hne
    simp only [callE2B, ha, ht, Option.getD_some]
    rw [if_pos hlt]
    simp [hne]
  · intro E st s info hget
    simp only [callE2B, hget, Option.getD_some]
    simp

/-- Witness for C10 (amended): `create` with `timeout 0` behaves exactly as
with `timeout 1`, `command_run` with `timeoutMs 500` exactly as with `1000`,
`set_timeout` with `timeout -3` exactly as with `1`, and `set_timeout` with
`timeout 0` on `stOne` is rejected. -/
theorem e2b_timeout_clamp_amended_witness :
    (callE2B envA { action := Action.create, sessionId := some "s7", timeout := some 0 } [] =
      callE2B envA { action := Action.create, sessionId := some "s7", timeout := some 1 } []) ∧
    (callE2B envA { action := Action.command_run, sessionId := some "s1", cmd := some "ls", timeoutMs := some 500 } stOne =
      callE2B envA { action := Action.command_run, sessionId := some "s1", cmd := some "ls", timeoutMs := some 1000 } stOne) ∧
    (callE2B envA { action := Action.set_timeout, sessionId := some "s1", timeout := some (-3) } stOne =
      callE2B envA { action := Action.set_timeout, sessionId := some "s1", timeout := some 1 } stOne) ∧
    (callE2B envA { action := Action.set_timeout, sessionId := some "s1", timeout := some 0 } stOne =
      ⟨errEnvelope (some "s1") "`timeout` is required for `set_timeout` action.",
       stOne, []⟩) :=
  ⟨e2b_timeout_clamp_amended.1 envA
     { action := Action.create, sessionId := some "s7", timeout := some 0 } [] 0
     rfl rfl (by norm_num),
   e2b_timeout_clamp_amended.2.1 envA
     { action := Action.command_run, sessionId := some "s1", cmd := some "ls", timeoutMs := some 500 }
     stOne 500 rfl rfl (by norm_num),
   e2b_timeout_clamp_amended.2.2.2.1 envA
     { action := Action.set_timeout, sessionId := some "s1", timeout := some (-3) }
     stOne (-3) rfl rfl (by norm_num) (by norm_num),
   e2b_timeout_clamp_amended.2.2.2.2 envA stOne "s1" ⟨⟨"sb1"⟩, 5, []⟩ rfl⟩

end E2B
